import Mathlib

/-!
Verification of the sentry metrics string-interning indexer
(`src/sentry/sentry_metrics`): the CloudSpanner distributed backend
(`indexer/cloudspanner/cloudspanner.py`), the consumer dispatch
(`consumers/indexer/processing.py`) and the backend configuration
(`configuration.py`), embedded shallowly in Lean.

Components of the repository that the claims depend on but whose source
is not part of this tree (the id generator's `reverse_bits`, the
`KeyCollection`/`KeyResults` data model, the writes limiter, the spanner
row model) are modelled from the specification and marked as such in
their doc comments.

The external CloudSpanner database is modelled in two ways: reads run
against an explicit table (`List StoredRow`), while the outcome of a
transactional insert (`run_in_transaction`) is an oracle parameter, so
that theorems quantify over every response the backend could give
(success, `AlreadyExists` with any HTTP code and message, or any other
exception).
-/

namespace Sentry

/-! ## Id codec (cloudspanner.py `IdCodec`) -/

/-- Modelled from the spec: the id generator's `reverse_bits(number, bit_size)`
(`sentry.sentry_metrics.indexer.id_generator`, not in this tree) is a
"64-bit bit-reversal permutation": reversing the bit order of a fixed-width
integer.  `reverse_bits n w` reverses the low `w` bits of `n`: bit `i` of
the input becomes bit `w - 1 - i` of the output. -/
def reverse_bits (n : Nat) (w : Nat) : Nat :=
  match w with
  | 0 => 0
  | w + 1 => (n % 2) * 2 ^ w + reverse_bits (n / 2) w

/-- `IdCodec.encode` (cloudspanner.py lines 72-73): reverse the 64 bits,
then subtract `2^63` so the value fits a signed 64-bit field. -/
def IdCodec.encode (value : Nat) : Int :=
  (reverse_bits value 64 : Int) - 2 ^ 63

/-- `IdCodec.decode` (cloudspanner.py lines 75-76): add back `2^63`,
then reverse the 64 bits again. -/
def IdCodec.decode (value : Int) : Nat :=
  reverse_bits (value + 2 ^ 63).toNat 64

/-! ## Key data model

Modelled from the spec (`sentry.sentry_metrics.indexer.base` is not in
this tree): `KeyCollection` is a collection of (organization_id, string)
pairs; `KeyResults` maps such keys to a resolved id plus a `fetch_type`
provenance tag, with first-writer-wins insertion and merge. -/

/-- Provenance tag of a resolved record (spec §3 data model). -/
inductive FetchType
  | CACHE_HIT
  | DB_READ
  | FIRST_SEEN
  | RATE_LIMITED
deriving DecidableEq, Repr

/-- A resolved (org, string) → decoded id triple, as passed to
`KeyResults.add_key_result`. -/
structure KeyResult where
  org_id : Int
  string : String
  id : Nat
deriving DecidableEq, Repr

/-- Modelled from the spec: a `KeyCollection` iterated via `as_tuples()`
as (organization_id, string) pairs; `size` is the number of pairs. -/
structure KeyCollection where
  tuples : List (Int × String)
deriving DecidableEq, Repr

def KeyCollection.size (kc : KeyCollection) : Nat := kc.tuples.length

/-- Modelled from the spec: `KeyResults` is a mapping from
(organization_id, string) to (id, fetch_type); at most one record per
key, first writer wins.  (The optional `fetch_type_ext` diagnostic
metadata is not modelled; no claim depends on it.) -/
structure KeyResults where
  results : List (Int × String × Nat × FetchType)
deriving DecidableEq, Repr

def KeyResults.empty : KeyResults := ⟨[]⟩

def KeyResults.lookup (kr : KeyResults) (org : Int) (s : String) :
    Option (Nat × FetchType) :=
  (kr.results.find? (fun r => r.1 == org && r.2.1 == s)).map (fun r => r.2.2)

/-- Modelled from the spec: insert with the stated fetch_type; re-adding
an existing key is a no-op (first-seen semantics). -/
def KeyResults.add_key_result (kr : KeyResults) (k : KeyResult) (ft : FetchType) :
    KeyResults :=
  if (kr.lookup k.org_id k.string).isSome then kr
  else ⟨kr.results ++ [(k.org_id, k.string, k.id, ft)]⟩

def KeyResults.add_key_results (kr : KeyResults) (ks : List KeyResult)
    (ft : FetchType) : KeyResults :=
  ks.foldl (fun acc k => acc.add_key_result k ft) kr

/-- Modelled from the spec: union of results; on key collision keep this
instance's entry (first-seen semantics). -/
def KeyResults.merge (a b : KeyResults) : KeyResults :=
  b.results.foldl
    (fun acc r => acc.add_key_result ⟨r.1, r.2.1, r.2.2.1⟩ r.2.2.2) a

/-- Modelled from the spec: the keys of the collection that this
`KeyResults` leaves unmapped. -/
def KeyResults.get_unmapped_keys (kr : KeyResults) (kc : KeyCollection) :
    KeyCollection :=
  ⟨kc.tuples.filter (fun t => (kr.lookup t.1 t.2).isNone)⟩

/-! ## Spanner rows and the exception model -/

/-- Modelled from the spec (storage schema §6) and the constructor call in
`_create_db_records`: `SpannerIndexerModel`
(`indexer.cloudspanner.cloudspanner_model`, not in this tree) carries the
encoded `id` that is physically stored, the caller-facing `decoded_id`,
the key fields and bookkeeping columns. -/
structure SpannerIndexerModel where
  id : Int
  decoded_id : Nat
  string : String
  organization_id : Int
  date_added : Nat
  last_seen : Nat
  retention_days : Nat
deriving DecidableEq, Repr

/-- A row as physically stored in the spanner table: the stored `id`
column holds the encoded id. -/
structure StoredRow where
  id : Int
  organization_id : Int
  string : String
deriving DecidableEq, Repr

def storedRowOfModel (m : SpannerIndexerModel) : StoredRow :=
  ⟨m.id, m.organization_id, m.string⟩

/-- The Python exceptions that the embedded control flow distinguishes. -/
inductive PyErr
  | alreadyExists (code : Nat) (message : String)
  | cloudSpannerRowAlreadyExists
  | valueError
  | indexError
  | attributeError
  | other (msg : String)
deriving DecidableEq, Repr

/-- The backend's response to `database.run_in_transaction(insert ...)`:
normal completion, or an exception. -/
inductive InsertOutcome
  | ok
  | raise (e : PyErr)
deriving DecidableEq, Repr

/-! ## The conflict-message parsing of `_insert_individual_records` -/

/-- `_UNIQUE_INDEX_VIOLATION_STRING` (cloudspanner.py line 47). -/
def uniqueIndexViolationString : String := "Unique index violation"

/-- Python `message.startswith(p)`. -/
def startsWithStr (s p : String) : Bool := p.data.isPrefixOf s.data

/-- `re.search` of `_UNIQUE_VIOLATION_EXISITING_RE = r"\[([^]]+)]"`
(cloudspanner.py line 48) over the characters of the message: the
leftmost `[`, followed by at least one non-`]` character, followed by
`]`; the capture group is the run between the brackets.  Positions where
`[` is immediately followed by `]` or never closed do not match and the
search continues after that `[`. -/
def findBracketGroup : List Char → Option (List Char)
  | [] => none
  | c :: rest =>
    if c = '[' then
      let grp := rest.takeWhile (fun ch => ch ≠ ']')
      if grp.isEmpty || (rest.dropWhile (fun ch => ch ≠ ']')).isEmpty then
        findBracketGroup rest
      else
        some grp
    else
      findBracketGroup rest

def searchBracketGroup (s : String) : Option String :=
  (findBracketGroup s.data).map (fun l => ⟨l⟩)

/-- Python `group.split(",")`: split on every comma, keeping empty
pieces. -/
def splitOnComma : List Char → List (List Char)
  | [] => [[]]
  | c :: rest =>
    let r := splitOnComma rest
    if c = ',' then [] :: r
    else
      match r with
      | h :: t => (c :: h) :: t
      | [] => [[c]]

/-- Digits of a decimal numeral. -/
def parseNatChars : List Char → Option Nat
  | [] => none
  | l =>
    if l.all (fun c => c.isDigit) then
      some (l.foldl (fun acc c => acc * 10 + (c.toNat - 48)) 0)
    else
      none

/-- Python `int(s)` on the strings occurring in conflict details: an
optional leading minus sign followed by decimal digits; anything else
raises `ValueError` (`none`). -/
def pyInt (s : String) : Option Int :=
  match s.data with
  | '-' :: rest => (parseNatChars rest).map (fun n => -(n : Int))
  | l => (parseNatChars l).map (fun n => (n : Int))

def keyResultOfModel (m : SpannerIndexerModel) : KeyResult :=
  ⟨m.organization_id, m.string, m.decoded_id⟩

/-! ## The insert paths (cloudspanner.py) -/

/-- `_insert_batched_records` (cloudspanner.py lines 172-216): run the
batch insert in one transaction.  On normal completion record every row
with `FIRST_SEEN`.  On `AlreadyExists` with HTTP code 409 raise
`CloudSpannerRowAlreadyExists`; on `AlreadyExists` with any other code
the handler falls through and the exception is swallowed with nothing
recorded.  Any other exception propagates. -/
def insert_batched_records (batchOutcome : InsertOutcome)
    (rows_to_insert : List SpannerIndexerModel) (key_results : KeyResults) :
    Except PyErr KeyResults :=
  match batchOutcome with
  | .ok =>
    .ok (key_results.add_key_results (rows_to_insert.map keyResultOfModel)
      .FIRST_SEEN)
  | .raise (.alreadyExists code _) =>
    if code == 409 then .error .cloudSpannerRowAlreadyExists
    else .ok key_results
  | .raise e => .error e

/-- `_insert_individual_records` (cloudspanner.py lines 218-301): insert
each row in its own transaction (`outcome row` is the backend's response
for that row's transaction; `readIndex org s` is the snapshot read of the
`id` column by the unique (organization_id, string) index).

Per row: on success, record the row's `decoded_id` with `FIRST_SEEN`.
On `AlreadyExists` with code 409 and a message starting with
"Unique index violation": extract the first bracket group; if found,
split it on commas into exactly three fields (otherwise the unpacking
raises `ValueError`), parse the third as an int (`ValueError` on
failure) and record its decode with `FIRST_SEEN`; if no bracket group is
found, fall back to the index read and record the decode of the first
returned id (`IndexError` if the read returns no row).  An
`AlreadyExists` without the 409 code or the message prefix is caught and
ignored, leaving the row unrecorded.  Any other exception propagates.

`insert_one_record` is the body of the `for` loop for one row;
`insert_individual_records` runs it over the rows in order, stopping at
the first propagated exception. -/
def insert_one_record (outcome : SpannerIndexerModel → InsertOutcome)
    (readIndex : Int → String → List Int)
    (row : SpannerIndexerModel) (key_results : KeyResults) :
    Except PyErr KeyResults :=
  match outcome row with
  | .ok =>
    .ok (key_results.add_key_result (keyResultOfModel row) .FIRST_SEEN)
  | .raise (.alreadyExists code msg) =>
    if code == 409 && startsWithStr msg uniqueIndexViolationString then
      match searchBracketGroup msg with
      | some grp =>
        match (splitOnComma grp.data).map (fun l => (⟨l⟩ : String)) with
        | [_, _, idStr] =>
          match pyInt idStr with
          | some e =>
            .ok (key_results.add_key_result
              ⟨row.organization_id, row.string, IdCodec.decode e⟩
              .FIRST_SEEN)
          | none => .error .valueError
        | _ => .error .valueError
      | none =>
        match readIndex row.organization_id row.string with
        | [] => .error .indexError
        | e :: _ =>
          .ok (key_results.add_key_result
            ⟨row.organization_id, row.string, IdCodec.decode e⟩
            .FIRST_SEEN)
    else
      .ok key_results
  | .raise e => .error e

def insert_individual_records (outcome : SpannerIndexerModel → InsertOutcome)
    (readIndex : Int → String → List Int)
    (rows_to_insert : List SpannerIndexerModel) (key_results : KeyResults) :
    Except PyErr KeyResults :=
  match rows_to_insert with
  | [] => .ok key_results
  | row :: rest =>
    match insert_one_record outcome readIndex row key_results with
    | .ok key_results' => insert_individual_records outcome readIndex rest key_results'
    | .error e => .error e

/-- `_insert_db_records` (cloudspanner.py lines 152-170): try the batch
insert; on `CloudSpannerRowAlreadyExists` fall back to individual
inserts of the same rows; any other exception is logged and re-raised
unmodified. -/
def insert_db_records (batchOutcome : InsertOutcome)
    (outcome : SpannerIndexerModel → InsertOutcome)
    (readIndex : Int → String → List Int)
    (rows_to_insert : List SpannerIndexerModel) (key_results : KeyResults) :
    Except PyErr KeyResults :=
  match insert_batched_records batchOutcome rows_to_insert key_results with
  | .ok kr => .ok kr
  | .error .cloudSpannerRowAlreadyExists =>
    insert_individual_records outcome readIndex rows_to_insert key_results
  | .error e => .error e

/-! ## Reads, record creation, and `bulk_record` -/

/-- `_get_db_records` (cloudspanner.py lines 112-129): snapshot read of
(organization_id, string, id) by the unique index for the requested
keys; each found row's stored id is decoded. -/
def get_db_records (db : List StoredRow) (db_keys : KeyCollection) :
    List KeyResult :=
  (db.filter (fun r =>
      db_keys.tuples.any (fun t => t.1 == r.organization_id && t.2 == r.string))).map
    (fun r => ⟨r.organization_id, r.string, IdCodec.decode r.id⟩)

/-- `_create_db_records` (cloudspanner.py lines 131-150): one new model
per key, in order, each with a fresh id from the generator (`ids` is the
stream of ids `get_id()` would return), stored id encoded, retention 90
days. -/
def create_db_records (ids : List Nat) (now : Nat) (db_keys : KeyCollection) :
    List SpannerIndexerModel :=
  (db_keys.tuples.zip ids).map (fun p =>
    { id := IdCodec.encode p.2
      decoded_id := p.2
      string := p.1.2
      organization_id := p.1.1
      date_added := now
      last_seen := now
      retention_days := 90 })

/-- Modelled from the spec: a string dropped by the writes limiter
carries a fully-formed rate-limited key result and its fetch type. -/
structure DroppedString where
  key_result : KeyResult
  fetch_type : FetchType
deriving DecidableEq, Repr

/-- Modelled from the spec: the state yielded by
`writes_limiter.check_write_limits` (the writes limiter is not in this
tree): the accepted subset of the candidate keys and the dropped
strings. -/
structure WritesLimiterState where
  accepted_keys : KeyCollection
  dropped_strings : List DroppedString
deriving DecidableEq, Repr

/-- The outcome of one `bulk_record` call: the returned `KeyResults` or
the propagated exception, together with whether the writes-limiter
scoped context was exited normally (committing the write quota).
Modelled from the spec: the scoped acquisition commits quota only on
normal exit of the `with` block and must not commit if the enclosed
write throws. -/
structure BulkRecordRun where
  result : Except PyErr KeyResults
  quota_committed : Bool
deriving Repr

/-- The `db_read_key_results` computed by `bulk_record` from the initial
snapshot read (cloudspanner.py lines 308-312). -/
def bulk_read_results (db : List StoredRow) (db_read_keys : KeyCollection) :
    KeyResults :=
  KeyResults.empty.add_key_results (get_db_records db db_read_keys) .DB_READ

/-- The `db_write_keys` remaining after the read (cloudspanner.py
line 313). -/
def bulk_write_keys (db : List StoredRow) (db_read_keys : KeyCollection) :
    KeyCollection :=
  (bulk_read_results db db_read_keys).get_unmapped_keys db_read_keys

/-- The rate-limited key results built from the limiter's dropped
strings (cloudspanner.py lines 336-342). -/
def rate_limited_results (st : WritesLimiterState) : KeyResults :=
  st.dropped_strings.foldl
    (fun acc d => acc.add_key_result d.key_result d.fetch_type)
    KeyResults.empty

/-- `bulk_record` (cloudspanner.py lines 303-352).  `limiter` models
`writes_limiter.check_write_limits`; `ids` the id generator's stream;
`batchOutcome`/`outcome`/`readIndex` the backend's responses inside
`_insert_db_records`.  The writes-limiter context is entered only when
unresolved keys remain; quota is committed exactly when the `with` block
is exited normally (including the early return for an empty accepted
set), and not committed when `_insert_db_records` raises. -/
def bulk_record (db : List StoredRow) (limiter : KeyCollection → WritesLimiterState)
    (ids : List Nat) (now : Nat)
    (batchOutcome : InsertOutcome) (outcome : SpannerIndexerModel → InsertOutcome)
    (readIndex : Int → String → List Int)
    (org_strings : KeyCollection) : BulkRecordRun :=
  let db_read_key_results := bulk_read_results db org_strings
  let db_write_keys := bulk_write_keys db org_strings
  if db_write_keys.size == 0 then
    { result := .ok db_read_key_results, quota_committed := false }
  else
    let st := limiter db_write_keys
    let filtered_db_write_keys := st.accepted_keys
    let rate_limited_key_results := rate_limited_results st
    if filtered_db_write_keys.size == 0 then
      { result := .ok (db_read_key_results.merge rate_limited_key_results)
        quota_committed := true }
    else
      let new_records := create_db_records ids now filtered_db_write_keys
      match insert_db_records batchOutcome outcome readIndex new_records
          KeyResults.empty with
      | .error e => { result := .error e, quota_committed := false }
      | .ok db_write_key_results =>
        { result := .ok ((db_read_key_results.merge db_write_key_results).merge
            rate_limited_key_results)
          quota_committed := true }

/-- `resolve` (cloudspanner.py lines 359-373): snapshot read of the `id`
column by the unique (organization_id, string) index; `None` when no row
matches, otherwise the decode of the first row's stored id. -/
def resolve (db : List StoredRow) (org_id : Int) (string : String) : Option Nat :=
  (db.find? (fun r => r.organization_id == org_id && r.string == string)).map
    (fun r => IdCodec.decode r.id)

/-- `reverse_resolve` (cloudspanner.py lines 375-388): snapshot read of
the `string` column keyed by the given id against the table's primary
key — the id is used as given, without encoding; `None` when no row
matches, otherwise the first row's string. -/
def reverse_resolve (db : List StoredRow) (id : Int) : Option String :=
  (db.find? (fun r => r.id == id)).map (fun r => r.string)

/-! ## Consumer dispatch (processing.py, configuration.py) -/

/-- `IndexerStorage` (configuration.py lines 22-24): the enum has exactly
the members `CLOUDSPANNER` and `POSTGRES`. -/
inductive IndexerStorage
  | CLOUDSPANNER
  | POSTGRES
deriving DecidableEq, Repr

/-- The member names of configuration.py's `IndexerStorage` enum. -/
def indexerStorageMemberNames : List String := ["CLOUDSPANNER", "POSTGRES"]

/-- The `IndexerStorage` member names that the `STORAGE_TO_INDEXER` dict
literal in processing.py (lines 16-20) accesses; evaluating the literal
requires each to exist on the enum. -/
def storageToIndexerAccessedMembers : List String :=
  ["CLOUDSPANNER", "POSTGRES", "MOCK"]

inductive IndexerKind
  | cloudspanner
  | postgres
  | mock
deriving DecidableEq, Repr

/-- A value of the `STORAGE_TO_INDEXER` dict: either a zero-argument
lambda that would build an indexer when called, or an indexer
instance. -/
inductive DispatchValue
  | factory (k : IndexerKind)
  | indexerInstance (k : IndexerKind)
deriving DecidableEq, Repr

/-- `STORAGE_TO_INDEXER` (processing.py lines 16-20), restricted to the
members that exist on `IndexerStorage`: the CLOUDSPANNER entry is a
lambda (`lambda: CloudSpannerIndexer(**settings.CLOUDSPANNER_OPTIONS)`),
the POSTGRES entry an instance. -/
def STORAGE_TO_INDEXER : IndexerStorage → DispatchValue
  | .CLOUDSPANNER => .factory .cloudspanner
  | .POSTGRES => .indexerInstance .postgres

/-- The attribute access `indexer.bulk_record(...)` in `process_messages`
(processing.py line 52): a function object has no `bulk_record`
attribute, so a factory value raises `AttributeError`; an instance
dispatches to its backend's `bulk_record` once. -/
def invoke_bulk_record : DispatchValue → Except PyErr IndexerKind
  | .factory _ => .error .attributeError
  | .indexerInstance k => .ok k

/-- `process_messages` (processing.py lines 23-58), reduced to the
indexer dispatch the claim is about: look the configured backend up in
`STORAGE_TO_INDEXER` and call `bulk_record` on the dict value. -/
def process_messages (db_backend : IndexerStorage) : Except PyErr IndexerKind :=
  invoke_bulk_record (STORAGE_TO_INDEXER db_backend)

end Sentry

namespace Sentry

/-! ## Theorems -/

theorem reverse_bits_succ (n w : Nat) :
    reverse_bits n (w + 1) = (n % 2) * 2 ^ w + reverse_bits (n / 2) w := rfl

/-- The reversal of `w` bits is below `2 ^ w`. -/
theorem reverse_bits_lt (n w : Nat) : reverse_bits n w < 2 ^ w := by
  induction w generalizing n with
  | zero => simp [reverse_bits]
  | succ w ih =>
    have h := ih (n / 2)
    have hm : n % 2 ≤ 1 := Nat.le_of_lt_succ (Nat.mod_lt n (by norm_num))
    have : (n % 2) * 2 ^ w ≤ 2 ^ w := by
      calc (n % 2) * 2 ^ w ≤ 1 * 2 ^ w := Nat.mul_le_mul_right _ hm
      _ = 2 ^ w := one_mul _
    simp only [reverse_bits, pow_succ]
    omega

/-- Reversing `w + 1` bits of `b * 2 ^ w + r` (top bit `b`, low bits `r`)
moves the top bit to the bottom and the reversed low bits above it. -/
theorem reverse_bits_split (w : Nat) (b r : Nat) (hb : b ≤ 1) (hr : r < 2 ^ w) :
    reverse_bits (b * 2 ^ w + r) (w + 1) = 2 * reverse_bits r w + b := by
  induction w generalizing b r with
  | zero =>
    interval_cases r
    interval_cases b <;> simp [reverse_bits]
  | succ w ih =>
    have hpow : b * 2 ^ (w + 1) = b * 2 ^ w * 2 := by ring
    have hdiv : (b * 2 ^ (w + 1) + r) / 2 = b * 2 ^ w + r / 2 := by
      rw [hpow]
      omega
    have hmod : (b * 2 ^ (w + 1) + r) % 2 = r % 2 := by
      rw [hpow]
      omega
    have hr2 : r / 2 < 2 ^ w := by
      rw [pow_succ] at hr
      omega
    rw [reverse_bits_succ, hdiv, hmod, ih b (r / 2) hb hr2,
      reverse_bits_succ r w]
    ring

/-- Bit reversal is an involution on `w`-bit values. -/
theorem reverse_bits_involution (n w : Nat) (h : n < 2 ^ w) :
    reverse_bits (reverse_bits n w) w = n := by
  induction w generalizing n with
  | zero =>
    simp only [reverse_bits]
    simp only [pow_zero, Nat.lt_one_iff] at h
    omega
  | succ w ih =>
    have hlt : reverse_bits (n / 2) w < 2 ^ w := reverse_bits_lt _ _
    have hm : n % 2 ≤ 1 := Nat.le_of_lt_succ (Nat.mod_lt n (by norm_num))
    have hdiv : n / 2 < 2 ^ w := by
      rw [pow_succ] at h
      omega
    conv_lhs => rw [reverse_bits_succ n w]
    rw [reverse_bits_split w (n % 2) (reverse_bits (n / 2) w) hm hlt, ih _ hdiv]
    omega

theorem reverse_bits_nonneg_int (n w : Nat) : (0 : Int) ≤ (reverse_bits n w : Int) := by
  exact_mod_cast Nat.zero_le _

/-- `decode` undoes `encode` on any 64-bit value. -/
theorem idcodec_decode_encode (x : Nat) (hx : x < 2 ^ 64) :
    IdCodec.decode (IdCodec.encode x) = x := by
  unfold IdCodec.decode IdCodec.encode
  have h1 : ((reverse_bits x 64 : Int) - 2 ^ 63 + 2 ^ 63).toNat = reverse_bits x 64 := by
    omega
  rw [h1]
  exact reverse_bits_involution x 64 hx

/-- C2: For every 64-bit integer x in the generator's valid range,
`IdCodec.decode (IdCodec.encode x) = x`, and `IdCodec.encode` is injective
over that range (the codec is a pure, stateless bijection). -/
theorem C2_idcodec_roundtrip_and_injective (x y : Nat)
    (hx : x < 2 ^ 64) (hy : y < 2 ^ 64) :
    IdCodec.decode (IdCodec.encode x) = x ∧
      (IdCodec.encode x = IdCodec.encode y → x = y) := by
  refine ⟨idcodec_decode_encode x hx, fun h => ?_⟩
  have := congrArg IdCodec.decode h
  rwa [idcodec_decode_encode x hx, idcodec_decode_encode y hy] at this

/-- C2 witness: the round trip and injectivity at the concrete ids 3 and 5. -/
theorem C2_witness :
    IdCodec.decode (IdCodec.encode 3) = 3 ∧
      (IdCodec.encode 3 = IdCodec.encode 5 → (3 : Nat) = 5) :=
  C2_idcodec_roundtrip_and_injective 3 5 (by norm_num) (by norm_num)

/-- C9: For every id x in the generator's valid range, `IdCodec.encode x`
lies in the signed 64-bit range `[-2^63, 2^63)`: the bit reversal followed
by subtracting `2^63` maps the full unsigned 64-bit value into the
backend's signed storage type. -/
theorem C9_encode_in_signed_64_bit_range (x : Nat) (_hx : x < 2 ^ 64) :
    -(2 ^ 63) ≤ IdCodec.encode x ∧ IdCodec.encode x < 2 ^ 63 := by
  unfold IdCodec.encode
  have hlt : reverse_bits x 64 < 2 ^ 64 := reverse_bits_lt x 64
  have hlt' : (reverse_bits x 64 : Int) < 2 ^ 64 := by exact_mod_cast hlt
  have hnn : (0 : Int) ≤ (reverse_bits x 64 : Int) := reverse_bits_nonneg_int x 64
  constructor <;> [omega; omega]

/-- C9 witness: the encoded value of id 3 lies in the signed 64-bit range. -/
theorem C9_witness :
    -(2 ^ 63) ≤ IdCodec.encode 3 ∧ IdCodec.encode 3 < 2 ^ 63 :=
  C9_encode_in_signed_64_bit_range 3 (by norm_num)

/-! ### KeyResults lookup lemmas -/

/-- An entry already present survives any later `add_key_result`
(first-writer-wins). -/
theorem KeyResults.lookup_add_of_some (kr : KeyResults) (k : KeyResult)
    (ft : FetchType) (o : Int) (s : String) (v : Nat × FetchType)
    (h : kr.lookup o s = some v) :
    (kr.add_key_result k ft).lookup o s = some v := by
  unfold KeyResults.add_key_result
  split
  · exact h
  · unfold KeyResults.lookup at h ⊢
    rcases Option.map_eq_some'.mp h with ⟨r, hr, hv⟩
    rw [List.find?_append, hr]
    simp [hv]

/-- Adding an entry for a different key does not make a missing key
appear. -/
theorem KeyResults.lookup_add_of_ne (kr : KeyResults) (k : KeyResult)
    (ft : FetchType) (o : Int) (s : String)
    (h : kr.lookup o s = none) (hne : ¬(k.org_id = o ∧ k.string = s)) :
    (kr.add_key_result k ft).lookup o s = none := by
  unfold KeyResults.add_key_result
  split
  · exact h
  · unfold KeyResults.lookup at h ⊢
    rw [Option.map_eq_none'] at h ⊢
    rw [List.find?_append, h]
    simp only [Option.none_or]
    rw [List.find?_eq_none]
    intro x hx
    simp only [List.mem_singleton] at hx
    subst hx
    simp only [Bool.and_eq_true, beq_iff_eq]
    exact fun hc => hne ⟨hc.1, hc.2⟩

/-- Adding an entry for a currently missing key records exactly that
entry. -/
theorem KeyResults.lookup_add_self (kr : KeyResults) (k : KeyResult)
    (ft : FetchType) (h : kr.lookup k.org_id k.string = none) :
    (kr.add_key_result k ft).lookup k.org_id k.string = some (k.id, ft) := by
  unfold KeyResults.add_key_result
  rw [h]
  simp only [Option.isSome_none, Bool.false_eq_true, if_false]
  unfold KeyResults.lookup at h ⊢
  rw [Option.map_eq_none'] at h
  rw [List.find?_append, h]
  simp

/-- A key missing from both operands of `merge` is missing from the
merge. -/
theorem KeyResults.lookup_foldl_add_none (a : KeyResults)
    (l : List (Int × String × Nat × FetchType)) (o : Int) (s : String)
    (ha : a.lookup o s = none)
    (hl : ∀ x ∈ l, ¬(x.1 = o ∧ x.2.1 = s)) :
    (l.foldl (fun acc r => acc.add_key_result ⟨r.1, r.2.1, r.2.2.1⟩ r.2.2.2)
      a).lookup o s = none := by
  induction l generalizing a with
  | nil => exact ha
  | cons r t ih =>
    simp only [List.foldl_cons]
    exact ih _
      (KeyResults.lookup_add_of_ne a _ _ o s ha (hl r (List.mem_cons_self _ _)))
      (fun x hx => hl x (List.mem_cons_of_mem _ hx))

theorem KeyResults.lookup_merge_none (a b : KeyResults) (o : Int) (s : String)
    (ha : a.lookup o s = none) (hb : b.lookup o s = none) :
    (a.merge b).lookup o s = none := by
  unfold KeyResults.merge
  unfold KeyResults.lookup at hb
  rw [Option.map_eq_none', List.find?_eq_none] at hb
  refine KeyResults.lookup_foldl_add_none a b.results o s ha (fun x hx => ?_)
  have := hb x hx
  simp only [Bool.and_eq_true, beq_iff_eq] at this
  exact fun hc => this ⟨hc.1, hc.2⟩

/-! ### The insert paths -/

/-- C4: When the single transactional batch insert fails with a
uniqueness conflict (`AlreadyExists`, HTTP 409), no record of the batch
is added via the batch path and `_insert_db_records` falls back to
inserting the very same rows one at a time starting from the unchanged
key results; when the batch insert succeeds, every inserted row is
recorded with fetch_type FIRST_SEEN and the individual-insert fallback is
never consulted. -/
theorem C4_batch_conflict_falls_back_else_records_first_seen
    (outcome : SpannerIndexerModel → InsertOutcome)
    (readIndex : Int → String → List Int)
    (rows : List SpannerIndexerModel) (kr : KeyResults) (msg : String) :
    insert_db_records (.raise (.alreadyExists 409 msg)) outcome readIndex rows kr =
        insert_individual_records outcome readIndex rows kr
    ∧ insert_db_records .ok outcome readIndex rows kr =
        .ok (kr.add_key_results (rows.map keyResultOfModel) .FIRST_SEEN) := by
  exact ⟨rfl, rfl⟩

/-- C8: `reverse_resolve` returns no value (not an error) when no stored
row carries the given id, and returns the matching row's string when one
does. -/
theorem C8_reverse_resolve_not_found_is_none (db : List StoredRow) (id : Int) :
    ((∀ r ∈ db, r.id ≠ id) → reverse_resolve db id = none)
    ∧ ∀ r, db.find? (fun r => r.id == id) = some r →
        reverse_resolve db id = some r.string := by
  constructor
  · intro h
    unfold reverse_resolve
    rw [List.find?_eq_none.mpr (fun x hx => by simpa using h x hx)]
    rfl
  · intro r hr
    unfold reverse_resolve
    rw [hr]
    rfl

/-- C8 witness: a table holding only the row with stored id 0 answers
`none` for id 5 and the row's string for id 0. -/
theorem C8_witness :
    reverse_resolve [⟨0, 1, "a"⟩] 5 = none
    ∧ reverse_resolve [⟨0, 1, "a"⟩] 0 = some "a" :=
  ⟨(C8_reverse_resolve_not_found_is_none [⟨0, 1, "a"⟩] 5).1 (by decide),
   (C8_reverse_resolve_not_found_is_none [⟨0, 1, "a"⟩] 0).2 ⟨0, 1, "a"⟩ (by decide)⟩

/-- C6: When an individual insert's uniqueness-conflict detail cannot be
parsed by the regex (no bracket group in the 409 "Unique index
violation" message), the implementation performs the fallback read by
the unique (organization_id, string) index and records the decode of the
recovered id; if that read returns no row, the run stops with an error
(`IndexError` from `result_list[0]`) rather than silently defaulting a
value for the key. -/
theorem C6_fallback_read_recovers_or_surfaces
    (outcome : SpannerIndexerModel → InsertOutcome)
    (readIndex : Int → String → List Int)
    (row : SpannerIndexerModel) (rest : List SpannerIndexerModel)
    (kr0 : KeyResults) (msg : String)
    (hconf : outcome row = .raise (.alreadyExists 409 msg))
    (hmsg : startsWithStr msg uniqueIndexViolationString = true)
    (hnogrp : searchBracketGroup msg = none) :
    (readIndex row.organization_id row.string = [] →
      insert_individual_records outcome readIndex (row :: rest) kr0 =
        .error .indexError)
    ∧ ∀ e es, readIndex row.organization_id row.string = e :: es →
        insert_individual_records outcome readIndex (row :: rest) kr0 =
          insert_individual_records outcome readIndex rest
            (kr0.add_key_result
              ⟨row.organization_id, row.string, IdCodec.decode e⟩ .FIRST_SEEN) := by
  constructor
  · intro h
    simp [insert_individual_records, insert_one_record, hconf, hmsg, hnogrp, h]
  · intro e es h
    simp [insert_individual_records, insert_one_record, hconf, hmsg, hnogrp, h]

/-- C6 witness: a 409 conflict whose message has no bracket group, with
an empty fallback read, stops the run with `IndexError`. -/
theorem C6_witness :
    insert_individual_records
      (fun _ => .raise (.alreadyExists 409 "Unique index violation without detail"))
      (fun _ _ => []) [⟨0, 1, "a", 1, 0, 0, 90⟩] KeyResults.empty =
      .error .indexError :=
  (C6_fallback_read_recovers_or_surfaces _ _ ⟨0, 1, "a", 1, 0, 0, 90⟩ [] _ _
    rfl (by decide) (by decide)).1 rfl

/-- C10: An `AlreadyExists` from the batch insert whose code is not
HTTP 409 is swallowed by `_insert_batched_records`: no exception reaches
the caller, the individual-insert fallback never runs, no key result is
recorded for any row of the batch, and `bulk_record` returns
successfully with the batch's keys absent from the result. -/
theorem C10_non_409_already_exists_swallowed
    (code : Nat) (msg : String)
    (outcome : SpannerIndexerModel → InsertOutcome)
    (readIndex : Int → String → List Int)
    (db : List StoredRow) (limiter : KeyCollection → WritesLimiterState)
    (ids : List Nat) (now : Nat)
    (org_strings : KeyCollection) (org : Int) (s : String)
    (hcode : code ≠ 409)
    (hw : (bulk_write_keys db org_strings).size ≠ 0)
    (hf : (limiter (bulk_write_keys db org_strings)).accepted_keys.size ≠ 0)
    (hread : (bulk_read_results db org_strings).lookup org s = none)
    (hdrop : (rate_limited_results
        (limiter (bulk_write_keys db org_strings))).lookup org s = none) :
    (∀ rows kr0, insert_db_records (.raise (.alreadyExists code msg))
        outcome readIndex rows kr0 = .ok kr0)
    ∧ (bulk_record db limiter ids now (.raise (.alreadyExists code msg))
        outcome readIndex org_strings).result =
      .ok (((bulk_read_results db org_strings).merge KeyResults.empty).merge
        (rate_limited_results (limiter (bulk_write_keys db org_strings))))
    ∧ ∀ kr, (bulk_record db limiter ids now (.raise (.alreadyExists code msg))
        outcome readIndex org_strings).result = .ok kr →
        kr.lookup org s = none := by
  have hswallow : ∀ rows kr0,
      insert_db_records (.raise (.alreadyExists code msg)) outcome readIndex
        rows kr0 = .ok kr0 := by
    intro rows kr0
    unfold insert_db_records insert_batched_records
    simp [hcode]
  have hresult : (bulk_record db limiter ids now
      (.raise (.alreadyExists code msg)) outcome readIndex org_strings).result =
      .ok (((bulk_read_results db org_strings).merge KeyResults.empty).merge
        (rate_limited_results (limiter (bulk_write_keys db org_strings)))) := by
    unfold bulk_record
    simp only [beq_iff_eq, hw, if_false, hf, if_neg]
    rw [hswallow]
  refine ⟨hswallow, hresult, fun kr hkr => ?_⟩
  rw [hresult] at hkr
  obtain rfl : (((bulk_read_results db org_strings).merge KeyResults.empty).merge
      (rate_limited_results (limiter (bulk_write_keys db org_strings)))) = kr :=
    by injection hkr
  exact KeyResults.lookup_merge_none _ _ org s
    (KeyResults.lookup_merge_none _ _ org s hread rfl) hdrop

/-- C10 witness: a non-409 `AlreadyExists` on the batch of the single new
key (1, "a") leaves `bulk_record` successful with the key unresolved. -/
theorem C10_witness :
    (bulk_record [] (fun kc => ⟨kc, []⟩) [1] 0
        (.raise (.alreadyExists 500 "row exists"))
        (fun _ => .ok) (fun _ _ => []) ⟨[(1, "a")]⟩).result =
      .ok KeyResults.empty
    ∧ KeyResults.empty.lookup 1 "a" = none := by
  have h := C10_non_409_already_exists_swallowed 500 "row exists"
    (fun _ => .ok) (fun _ _ => []) [] (fun kc => ⟨kc, []⟩) [1] 0
    ⟨[(1, "a")]⟩ 1 "a" (by decide) (by decide) (by decide) (by decide) (by decide)
  exact ⟨h.2.1, by decide⟩

/-- C3: The database insert of new records runs inside the
writes-limiter scoped context; if `_insert_db_records` raises, the
context is exited exceptionally, the write quota is not committed, and
the exception propagates unmodified out of `bulk_record`; the quota is
committed only on runs whose enclosed write completes normally. -/
theorem C3_insert_failure_means_no_quota_commit
    (db : List StoredRow) (limiter : KeyCollection → WritesLimiterState)
    (ids : List Nat) (now : Nat)
    (batchOutcome : InsertOutcome) (outcome : SpannerIndexerModel → InsertOutcome)
    (readIndex : Int → String → List Int)
    (org_strings : KeyCollection) (e : PyErr)
    (hw : (bulk_write_keys db org_strings).size ≠ 0)
    (hf : (limiter (bulk_write_keys db org_strings)).accepted_keys.size ≠ 0)
    (hins : insert_db_records batchOutcome outcome readIndex
        (create_db_records ids now
          (limiter (bulk_write_keys db org_strings)).accepted_keys)
        KeyResults.empty = .error e) :
    (bulk_record db limiter ids now batchOutcome outcome readIndex
        org_strings).result = .error e
    ∧ (bulk_record db limiter ids now batchOutcome outcome readIndex
        org_strings).quota_committed = false
    ∧ ∀ (bo : InsertOutcome) (oc : SpannerIndexerModel → InsertOutcome)
        (ri : Int → String → List Int),
        (bulk_record db limiter ids now bo oc ri org_strings).quota_committed =
          true →
        ∃ kr, (bulk_record db limiter ids now bo oc ri org_strings).result =
          .ok kr := by
  refine ⟨?_, ?_, ?_⟩
  · unfold bulk_record
    simp only [beq_iff_eq, hw, if_false, hf, if_neg]
    rw [hins]
  · unfold bulk_record
    simp only [beq_iff_eq, hw, if_false, hf, if_neg]
    rw [hins]
  · intro bo oc ri h
    unfold bulk_record at h ⊢
    simp only [beq_iff_eq, hw, if_false, hf, if_neg] at h ⊢
    cases hins' : insert_db_records bo oc ri
        (create_db_records ids now
          (limiter (bulk_write_keys db org_strings)).accepted_keys)
        KeyResults.empty with
    | error e' => rw [hins'] at h; exact absurd h (by simp)
    | ok kr => exact ⟨_, rfl⟩

/-- C3 witness: a connectivity failure inside the insert leaves the
quota uncommitted and propagates out of `bulk_record`. -/
theorem C3_witness :
    (bulk_record [] (fun kc => ⟨kc, []⟩) [1] 0 (.raise (.other "conn"))
        (fun _ => .ok) (fun _ _ => []) ⟨[(1, "a")]⟩).result =
      .error (.other "conn")
    ∧ (bulk_record [] (fun kc => ⟨kc, []⟩) [1] 0 (.raise (.other "conn"))
        (fun _ => .ok) (fun _ _ => []) ⟨[(1, "a")]⟩).quota_committed = false := by
  have h := C3_insert_failure_means_no_quota_commit [] (fun kc => ⟨kc, []⟩) [1] 0
    (.raise (.other "conn")) (fun _ => .ok) (fun _ _ => []) ⟨[(1, "a")]⟩
    (.other "conn") (by decide) (by decide) rfl
  exact ⟨h.1, h.2.1⟩

/-! ### The individual-insert fallback (C1) -/

/-- A normally completed loop body either leaves the key results
unchanged or appends one FIRST_SEEN entry for the row's own key. -/
theorem insert_one_record_ok_shape (outcome : SpannerIndexerModel → InsertOutcome)
    (readIndex : Int → String → List Int)
    (row : SpannerIndexerModel) (kr0 kr' : KeyResults)
    (hstep : insert_one_record outcome readIndex row kr0 = .ok kr') :
    kr' = kr0 ∨ ∃ idv, kr' =
      kr0.add_key_result ⟨row.organization_id, row.string, idv⟩ .FIRST_SEEN := by
  unfold insert_one_record at hstep
  split at hstep
  · exact .inr ⟨row.decoded_id, by injection hstep with h; exact h.symm⟩
  · split at hstep
    · split at hstep
      · split at hstep
        · split at hstep
          · exact .inr ⟨_, by injection hstep with h; exact h.symm⟩
          · exact absurd hstep (by simp)
        · exact absurd hstep (by simp)
      · split at hstep
        · exact absurd hstep (by simp)
        · exact .inr ⟨_, by injection hstep with h; exact h.symm⟩
    · exact .inl (by injection hstep with h; exact h.symm)
  · exact absurd hstep (by simp)

/-- A loop body that hits a 409 uniqueness conflict carrying the
"Unique index violation" message prefix and completes normally records
the decode of some encoded id for the row's key with FIRST_SEEN. -/
theorem insert_one_record_conflict_resolves
    (outcome : SpannerIndexerModel → InsertOutcome)
    (readIndex : Int → String → List Int)
    (row : SpannerIndexerModel) (kr0 kr' : KeyResults) (msg : String)
    (hconf : outcome row = .raise (.alreadyExists 409 msg))
    (hmsg : startsWithStr msg uniqueIndexViolationString = true)
    (hstep : insert_one_record outcome readIndex row kr0 = .ok kr') :
    ∃ e : Int, kr' = kr0.add_key_result
      ⟨row.organization_id, row.string, IdCodec.decode e⟩ .FIRST_SEEN := by
  unfold insert_one_record at hstep
  rw [hconf] at hstep
  simp only [hmsg, beq_self_eq_true, Bool.and_self, if_true] at hstep
  split at hstep
  · split at hstep
    · split at hstep
      · exact ⟨_, by injection hstep with h; exact h.symm⟩
      · exact absurd hstep (by simp)
    · exact absurd hstep (by simp)
  · split at hstep
    · exact absurd hstep (by simp)
    · exact ⟨_, by injection hstep with h; exact h.symm⟩

/-- Entries present before a normally completed run of the individual
inserts are still present, unchanged, afterwards. -/
theorem insert_individual_preserves_some
    (outcome : SpannerIndexerModel → InsertOutcome)
    (readIndex : Int → String → List Int)
    (rows : List SpannerIndexerModel) (kr0 kr : KeyResults)
    (o : Int) (s : String) (v : Nat × FetchType)
    (hrun : insert_individual_records outcome readIndex rows kr0 = .ok kr)
    (h : kr0.lookup o s = some v) :
    kr.lookup o s = some v := by
  induction rows generalizing kr0 with
  | nil =>
    unfold insert_individual_records at hrun
    injection hrun with h'
    rwa [h'] at h
  | cons row rest ih =>
    unfold insert_individual_records at hrun
    cases hstep : insert_one_record outcome readIndex row kr0 with
    | error e => rw [hstep] at hrun; exact absurd hrun (by simp)
    | ok kr' =>
      rw [hstep] at hrun
      refine ih kr' hrun ?_
      rcases insert_one_record_ok_shape outcome readIndex row kr0 kr' hstep with
        rfl | ⟨idv, rfl⟩
      · exact h
      · exact KeyResults.lookup_add_of_some _ _ _ _ _ _ h

/-- A normally completed loop body for a different key does not make a
missing key appear. -/
theorem insert_one_record_preserves_none_of_ne
    (outcome : SpannerIndexerModel → InsertOutcome)
    (readIndex : Int → String → List Int)
    (row : SpannerIndexerModel) (kr0 kr' : KeyResults) (o : Int) (s : String)
    (hstep : insert_one_record outcome readIndex row kr0 = .ok kr')
    (h : kr0.lookup o s = none)
    (hne : ¬(row.organization_id = o ∧ row.string = s)) :
    kr'.lookup o s = none := by
  rcases insert_one_record_ok_shape outcome readIndex row kr0 kr' hstep with
    rfl | ⟨idv, rfl⟩
  · exact h
  · exact KeyResults.lookup_add_of_ne _ _ _ _ _ h hne

/-- Induction workhorse for C1: a key with distinct peers whose insert
conflicts with a 409 "Unique index violation" ends up, on any normally
completed run, recorded as the decode of some encoded id with
FIRST_SEEN. -/
theorem insert_individual_resolves_aux
    (outcome : SpannerIndexerModel → InsertOutcome)
    (readIndex : Int → String → List Int)
    (row : SpannerIndexerModel) (msg : String)
    (hconf : outcome row = .raise (.alreadyExists 409 msg))
    (hmsg : startsWithStr msg uniqueIndexViolationString = true) :
    ∀ rows, row ∈ rows →
      (rows.map (fun r => (r.organization_id, r.string))).Nodup →
      ∀ kr0 kr, kr0.lookup row.organization_id row.string = none →
        insert_individual_records outcome readIndex rows kr0 = .ok kr →
        ∃ e : Int, kr.lookup row.organization_id row.string =
          some (IdCodec.decode e, .FIRST_SEEN) := by
  intro rows
  induction rows with
  | nil => intro h; cases h
  | cons r rest ih =>
    intro hrow hnodup kr0 kr hfresh hok
    unfold insert_individual_records at hok
    cases hstep : insert_one_record outcome readIndex r kr0 with
    | error e => rw [hstep] at hok; exact absurd hok (by simp)
    | ok kr' =>
      rw [hstep] at hok
      rcases List.mem_cons.mp hrow with rfl | hmem
      · obtain ⟨e, rfl⟩ := insert_one_record_conflict_resolves outcome readIndex
          row kr0 kr' msg hconf hmsg hstep
        exact ⟨e, insert_individual_preserves_some outcome readIndex rest _ kr
          _ _ _ hok (KeyResults.lookup_add_self kr0 _ _ hfresh)⟩
      · simp only [List.map_cons, List.nodup_cons] at hnodup
        have hne : ¬(r.organization_id = row.organization_id ∧
            r.string = row.string) := by
          rintro ⟨h1, h2⟩
          refine hnodup.1 ?_
          rw [h1, h2]
          exact List.mem_map_of_mem _ hmem
        exact ih hmem hnodup.2 kr' kr
          (insert_one_record_preserves_none_of_ne outcome readIndex r kr0 kr'
            _ _ hstep hfresh hne) hok

/-- C1 (amended): For every row whose individual insert raises a
uniqueness conflict (`AlreadyExists`, HTTP 409) whose message starts
with "Unique index violation", if `_insert_individual_records` returns
without raising (and the batch's keys are distinct and not already
resolved), the winning existing id is decoded and recorded in the key
results with fetch_type FIRST_SEEN (via error-detail parsing or the
fallback read).  Conflicts lacking the 409 code or that message prefix
are silently skipped, so not every key passed to
`_insert_individual_records` is resolved (see the counterexample). -/
theorem C1_amended_conflicts_with_violation_message_resolved
    (outcome : SpannerIndexerModel → InsertOutcome)
    (readIndex : Int → String → List Int)
    (rows : List SpannerIndexerModel) (kr0 kr : KeyResults)
    (row : SpannerIndexerModel) (msg : String)
    (hrow : row ∈ rows)
    (hnodup : (rows.map (fun r => (r.organization_id, r.string))).Nodup)
    (hfresh : kr0.lookup row.organization_id row.string = none)
    (hconf : outcome row = .raise (.alreadyExists 409 msg))
    (hmsg : startsWithStr msg uniqueIndexViolationString = true)
    (hok : insert_individual_records outcome readIndex rows kr0 = .ok kr) :
    ∃ e : Int, kr.lookup row.organization_id row.string =
      some (IdCodec.decode e, .FIRST_SEEN) :=
  insert_individual_resolves_aux outcome readIndex row msg hconf hmsg
    rows hrow hnodup kr0 kr hfresh hok

/-- C1 counterexample: a uniqueness conflict whose `AlreadyExists`
carries HTTP 409 but a message without the "Unique index violation"
prefix (such as CloudSpanner's primary-key message "Row [..] in table ..
already exists") is silently skipped: the run returns successfully with
the key absent from the key results, even though a winning row exists
and the fallback read could have recovered its id. -/
theorem C1_counterexample :
    insert_individual_records
      (fun _ => .raise (.alreadyExists 409 "Row [0] in table t already exists"))
      (fun _ _ => [0]) [⟨0, 1, "a", 1, 0, 0, 90⟩] KeyResults.empty =
      .ok KeyResults.empty
    ∧ KeyResults.empty.lookup 1 "a" = none :=
  ⟨rfl, rfl⟩

/-- C1 witness: a single-row batch whose insert conflicts with the
documented "Unique index violation .. [org,string,id] .." message ends
with the key resolved to the decode of the reported id, FIRST_SEEN. -/
theorem C1_witness :
    ∃ e : Int,
      KeyResults.lookup
        (KeyResults.empty.add_key_result
          ⟨1, "a", IdCodec.decode 6866628476861885949⟩ .FIRST_SEEN)
        1 "a" = some (IdCodec.decode e, .FIRST_SEEN) :=
  C1_amended_conflicts_with_violation_message_resolved
    (fun _ => .raise (.alreadyExists 409
      "Unique index violation on index unique_organization_string_index at index key [1,a,6866628476861885949]. It conflicts with row [6866628476861885949] in table perfstringindexer_v2."))
    (fun _ _ => []) [⟨0, 1, "a", 1, 0, 0, 90⟩] KeyResults.empty
    (KeyResults.empty.add_key_result
      ⟨1, "a", IdCodec.decode 6866628476861885949⟩ .FIRST_SEEN)
    ⟨0, 1, "a", 1, 0, 0, 90⟩
    "Unique index violation on index unique_organization_string_index at index key [1,a,6866628476861885949]. It conflicts with row [6866628476861885949] in table perfstringindexer_v2."
    (List.mem_singleton.mpr rfl) (by decide) (by decide) rfl (by decide) rfl

/-- C5 (code bug): the caller-facing id does not round-trip through
`reverse_resolve`.  A record created for (org 1, "a") with generated id 1
is stored under the encoded id `encode 1 = 0` while the caller receives
the decoded id 1 (as `resolve` confirms); `reverse_resolve` looks the
given id up against the stored (encoded) primary key without encoding
it, so `reverse_resolve` of the caller's id 1 finds nothing, while the
internal encoded id 0 — which no caller holds — would return "a". -/
theorem C5_reverse_resolve_breaks_roundtrip :
    (create_db_records [1] 0 ⟨[(1, "a")]⟩).map (fun r => r.decoded_id) = [1]
    ∧ (create_db_records [1] 0 ⟨[(1, "a")]⟩).map storedRowOfModel = [⟨0, 1, "a"⟩]
    ∧ resolve ((create_db_records [1] 0 ⟨[(1, "a")]⟩).map storedRowOfModel)
        1 "a" = some 1
    ∧ reverse_resolve ((create_db_records [1] 0 ⟨[(1, "a")]⟩).map storedRowOfModel)
        1 = none
    ∧ reverse_resolve ((create_db_records [1] 0 ⟨[(1, "a")]⟩).map storedRowOfModel)
        0 = some "a" := by
  refine ⟨by decide, by decide, by decide, by decide, by decide⟩

/-- C7 (code bug): the dispatch from configured backend to indexer is
unusable for two of the three configured backends: the
`STORAGE_TO_INDEXER` dict literal accesses the member `MOCK`, which
`IndexerStorage` does not define (so evaluating the table raises
`AttributeError` at import), and the CLOUDSPANNER entry is an uncalled
zero-argument lambda, so calling `.bulk_record` on the looked-up value
raises `AttributeError`; only POSTGRES dispatches to an indexer's
`bulk_record`. -/
theorem C7_dispatch_is_broken :
    ("MOCK" ∈ storageToIndexerAccessedMembers
      ∧ "MOCK" ∉ indexerStorageMemberNames)
    ∧ process_messages .CLOUDSPANNER = .error .attributeError
    ∧ process_messages .POSTGRES = .ok .postgres := by
  refine ⟨⟨by decide, by decide⟩, rfl, rfl⟩

end Sentry
